import Mathlib

/-! Well-known parameter names of `include/openssl/core_names.h`

The header is a table of fifteen `#define`s in three groups (provider, cipher,
digest).  Each macro is embedded as a Lean string constant of the same name,
and `core_names` lists the macros in header order together with the
`OSSL_PARAM_*` identifier that the header's comment attaches to the macro
(`none` where the header attaches no comment).

The parameter protocol that consumes these names (`OSSL_PARAM` descriptors and
their accessors) is declared elsewhere in the repository; its operations are
modelled from the specification in the second half of the definitions.
-/

namespace CoreNames

/-! ## The header -/

/-- Line 25: `#define OSSL_PROV_PARAM_NAME "name"`. -/
def OSSL_PROV_PARAM_NAME : String := "name"
/-- Line 30: `#define OSSL_PROV_PARAM_VERSION "version"`. -/
def OSSL_PROV_PARAM_VERSION : String := "version"
/-- Line 35: `#define OSSL_PROV_PARAM_BUILDINFO "buildinfo"`. -/
def OSSL_PROV_PARAM_BUILDINFO : String := "buildinfo"
/-- Line 40: `#define OSSL_CIPHER_PARAM_PADDING "padding"`. -/
def OSSL_CIPHER_PARAM_PADDING : String := "padding"
/-- Line 41: `#define OSSL_CIPHER_PARAM_MODE "mode"`. -/
def OSSL_CIPHER_PARAM_MODE : String := "mode"
/-- Line 42: `#define OSSL_CIPHER_PARAM_BLOCK_SIZE "blocksize"`. -/
def OSSL_CIPHER_PARAM_BLOCK_SIZE : String := "blocksize"
/-- Line 43: `#define OSSL_CIPHER_PARAM_FLAGS "flags"`. -/
def OSSL_CIPHER_PARAM_FLAGS : String := "flags"
/-- Line 44: `#define OSSL_CIPHER_PARAM_KEYLEN "keylen"`. -/
def OSSL_CIPHER_PARAM_KEYLEN : String := "keylen"
/-- Line 45: `#define OSSL_CIPHER_PARAM_IVLEN "ivlen"`. -/
def OSSL_CIPHER_PARAM_IVLEN : String := "ivlen"
/-- Line 46: `#define OSSL_CIPHER_PARAM_IV "iv"`. -/
def OSSL_CIPHER_PARAM_IV : String := "iv"
/-- Line 47: `#define OSSL_CIPHER_PARAM_NUM "num"`. -/
def OSSL_CIPHER_PARAM_NUM : String := "num"
/-- Line 50: `#define OSSL_DIGEST_PARAM_XOFLEN "xoflen"`. -/
def OSSL_DIGEST_PARAM_XOFLEN : String := "xoflen"
/-- Line 51: `#define OSSL_DIGEST_PARAM_SSL3_MS "ssl3-ms"`. -/
def OSSL_DIGEST_PARAM_SSL3_MS : String := "ssl3-ms"
/-- Line 52: `#define OSSL_DIGEST_PARAM_PAD_TYPE "pad_type"`. -/
def OSSL_DIGEST_PARAM_PAD_TYPE : String := "pad_type"
/-- Line 53: `#define OSSL_DIGEST_PARAM_MICALG "micalg"`. -/
def OSSL_DIGEST_PARAM_MICALG : String := "micalg"

/-- One `#define` of the header: the macro's identifier, the string it expands
to, and the `OSSL_PARAM_*` identifier of its type comment, if it has one. -/
structure KeyMacro where
  ident : String
  value : String
  typeComment : Option String
  deriving DecidableEq, Repr

/-- The fifteen macros of `core_names.h`, in header order.  The three provider
macros carry a `Type:` line in the block comment above them, six cipher macros
carry a trailing comment, and the remaining six macros carry no type comment. -/
def core_names : List KeyMacro :=
  [ ⟨"OSSL_PROV_PARAM_NAME", OSSL_PROV_PARAM_NAME, some "OSSL_PARAM_UTF8_STRING"⟩,
    ⟨"OSSL_PROV_PARAM_VERSION", OSSL_PROV_PARAM_VERSION, some "OSSL_PARAM_UTF8_STRING"⟩,
    ⟨"OSSL_PROV_PARAM_BUILDINFO", OSSL_PROV_PARAM_BUILDINFO, some "OSSL_PARAM_UTF8_STRING"⟩,
    ⟨"OSSL_CIPHER_PARAM_PADDING", OSSL_CIPHER_PARAM_PADDING, none⟩,
    ⟨"OSSL_CIPHER_PARAM_MODE", OSSL_CIPHER_PARAM_MODE, none⟩,
    ⟨"OSSL_CIPHER_PARAM_BLOCK_SIZE", OSSL_CIPHER_PARAM_BLOCK_SIZE, some "OSSL_PARAM_INTEGER"⟩,
    ⟨"OSSL_CIPHER_PARAM_FLAGS", OSSL_CIPHER_PARAM_FLAGS, some "OSSL_PARAM_UNSIGNED_INTEGER"⟩,
    ⟨"OSSL_CIPHER_PARAM_KEYLEN", OSSL_CIPHER_PARAM_KEYLEN, some "OSSL_PARAM_INTEGER"⟩,
    ⟨"OSSL_CIPHER_PARAM_IVLEN", OSSL_CIPHER_PARAM_IVLEN, some "OSSL_PARAM_INTEGER"⟩,
    ⟨"OSSL_CIPHER_PARAM_IV", OSSL_CIPHER_PARAM_IV, some "OSSL_PARAM_OCTET_PTR"⟩,
    ⟨"OSSL_CIPHER_PARAM_NUM", OSSL_CIPHER_PARAM_NUM, some "OSSL_PARAM_INTEGER"⟩,
    ⟨"OSSL_DIGEST_PARAM_XOFLEN", OSSL_DIGEST_PARAM_XOFLEN, none⟩,
    ⟨"OSSL_DIGEST_PARAM_SSL3_MS", OSSL_DIGEST_PARAM_SSL3_MS, none⟩,
    ⟨"OSSL_DIGEST_PARAM_PAD_TYPE", OSSL_DIGEST_PARAM_PAD_TYPE, none⟩,
    ⟨"OSSL_DIGEST_PARAM_MICALG", OSSL_DIGEST_PARAM_MICALG, none⟩ ]

/-- The key strings of the header, in header order. -/
def keyStrings : List String := core_names.map KeyMacro.value

/-- The bytes of a key: the code points of its characters (for the header's
keys, which are ASCII, these are the bytes of the C string literal). -/
def keyBytes (s : String) : List Nat := s.toList.map Char.toNat

/-- Modelled from the spec: the closed enumeration of value tags of §3 (the C
declarations of the `OSSL_PARAM_*` type codes are not part of the header). -/
inductive ValueTag where
  | Int
  | UInt
  | Real
  | Utf8String
  | Utf8Ptr
  | OctetString
  | OctetPtr
  deriving DecidableEq, Repr

/-- Modelled from the spec: the value tag named by a type comment of the
header.  The header uses four identifiers, which the spec reads as integer,
unsigned integer, UTF8 string and octet pointer; any other text names no tag. -/
def tagOfTypeComment (c : String) : Option ValueTag :=
  if c = "OSSL_PARAM_INTEGER" then some ValueTag.Int
  else if c = "OSSL_PARAM_UNSIGNED_INTEGER" then some ValueTag.UInt
  else if c = "OSSL_PARAM_UTF8_STRING" then some ValueTag.Utf8String
  else if c = "OSSL_PARAM_OCTET_PTR" then some ValueTag.OctetPtr
  else none

/-- The value tag the header declares for a macro, if it declares one. -/
def KeyMacro.declaredTag (m : KeyMacro) : Option ValueTag :=
  m.typeComment.bind tagOfTypeComment

/-- The macro whose value is exactly `key` (first in header order). -/
def macroOfKey (key : String) : Option KeyMacro :=
  core_names.find? (fun m => m.value == key)

/-- The value tag the header declares for a key string, if any. -/
def declaredTag (key : String) : Option ValueTag :=
  (macroOfKey key).bind KeyMacro.declaredTag

/-- The four kinds of value type the spec names for the header's annotations:
UTF8 string, integer, unsigned integer, octet pointer. -/
def fourKinds : List ValueTag :=
  [ValueTag.Utf8String, ValueTag.Int, ValueTag.UInt, ValueTag.OctetPtr]

/-- Lowercase ASCII letter. -/
def isLowerAscii (b : Nat) : Bool := 97 ≤ b && b ≤ 122

/-- Decimal digit. -/
def isDigitAscii (b : Nat) : Bool := 48 ≤ b && b ≤ 57

/-- A byte allowed inside a key: lowercase letter, digit, `-` (45) or `_` (95). -/
def isKeyByte (b : Nat) : Bool := isLowerAscii b || isDigitAscii b || b == 45 || b == 95

/-- ASCII case folding of one byte (`A`..`Z` to `a`..`z`, all else unchanged). -/
def foldByte (b : Nat) : Nat := if 65 ≤ b ∧ b ≤ 90 then b + 32 else b

/-- ASCII case folding of a key. -/
def foldKey (s : String) : List Nat := (keyBytes s).map foldByte

/-- Key `a` is a proper prefix of key `b`: a prefix, and a different string. -/
def properPrefixOf (a b : String) : Bool :=
  (keyBytes a).isPrefixOf (keyBytes b) && keyBytes a != keyBytes b

/-- The ordered pairs of header keys standing in the proper-prefix relation. -/
def prefixPairs : List (String × String) :=
  (keyStrings.product keyStrings).filter (fun p => properPrefixOf p.1 p.2)

/-- A comparison limited to the length of the searched key: the first
`length searched` bytes of the candidate are compared with the searched key. -/
def lengthLimitedEq (searched candidate : String) : Bool :=
  (keyBytes candidate).take (keyBytes searched).length == keyBytes searched

end CoreNames

/-! ## The parameter protocol

The descriptor type and its accessors are not part of `core_names.h`; they are
modelled from the specification (§3, §4.2 to §4.5, §7).  The payload type `α` is
left abstract: the specification fixes no encoding of a value, and passes a
value together with its size in bytes. -/

namespace Param

open CoreNames (ValueTag)

/-- Modelled from the spec: the error kinds of §7 (the accessor functions that
return them are not part of the header). -/
inductive ParamError where
  | UnknownKey
  | TypeMismatch
  | ValueTruncated
  | BufferTooSmall (required : Nat)
  | CapacityExceeded
  deriving DecidableEq, Repr

/-- Modelled from the spec: the Parameter Descriptor of §3 (its C declaration
is not part of the header): key, tag, data location (`none` is a null
location), capacity in bytes, and the used-size output slot. -/
structure Descriptor (α : Type) where
  key : String
  tag : ValueTag
  data : Option α
  capacity : Nat
  used_size : Nat
  deriving DecidableEq, Repr

/-- Modelled from the spec: the sentinel descriptor that ends a Parameter
Array (§3); it is recognised by its empty key alone, its other fields are
unused. -/
def terminator {α : Type} : Descriptor α :=
  { key := "", tag := ValueTag.Int, data := none, capacity := 0, used_size := 0 }

/-- Modelled from the spec: §4.2 `set(key, tag, source, source_size)`.  With a
capacity fixed in advance (`some c`) it fails with `CapacityExceeded` when
`source_size` exceeds `c`; otherwise it binds the descriptor to `source` and
records `used_size = source_size`.  Without a fixed capacity the descriptor is
sized to the source. -/
def set {α : Type} (fixed : Option Nat) (key : String) (tag : ValueTag) (source : α)
    (source_size : Nat) : Except ParamError (Descriptor α) :=
  match fixed with
  | some c =>
    if c < source_size then Except.error ParamError.CapacityExceeded
    else Except.ok
      { key := key, tag := tag, data := some source, capacity := c, used_size := source_size }
  | none =>
    Except.ok
      { key := key, tag := tag, data := some source, capacity := source_size,
        used_size := source_size }

/-- Modelled from the spec: §4.2 `get(descriptor, expected_tag)`.  It returns
the value held at the data location only if the descriptor's tag is the
expected tag, and fails with `TypeMismatch` otherwise; no conversion is
applied to the value.  The checks against a destination (`ValueTruncated`,
`BufferTooSmall`) need the destination's size, which this operation does not
take; they are made by `fetch`. -/
def get {α : Type} (d : Descriptor α) (expected_tag : ValueTag) :
    Except ParamError (Option α) :=
  if d.tag = expected_tag then Except.ok d.data else Except.error ParamError.TypeMismatch

/-- Modelled from the spec: §4.3 `find(array, key)`, a linear scan from the
left that ends at the terminator; the first descriptor with the key wins. -/
def find {α : Type} : List (Descriptor α) → String → Option (Descriptor α)
  | [], _ => none
  | d :: ds, key =>
    if d.key = "" then none
    else if d.key = key then some d
    else find ds key

/-- Modelled from the spec: §4.3 `for_each(array, fn)`, visiting the
descriptors in order up to, and not including, the terminator. -/
def for_each {α β : Type} : List (Descriptor α) → (Descriptor α → β) → List β
  | [], _ => []
  | d :: ds, fn => if d.key = "" then [] else fn d :: for_each ds fn

/-- Modelled from the spec: `get(array, key, tag)` as the scenarios of §8 use
it, steps 1 and 2 of §4.4: find the descriptor by key (`UnknownKey` when
absent), then `get` it with the expected tag. -/
def getFrom {α : Type} (array : List (Descriptor α)) (key : String) (expected_tag : ValueTag) :
    Except ParamError (Option α) :=
  match find array key with
  | none => Except.error ParamError.UnknownKey
  | some d => get d expected_tag

/-- Modelled from the spec: the numeric tags of §4.1. -/
def isNumeric : ValueTag → Bool
  | ValueTag.Int => true
  | ValueTag.UInt => true
  | ValueTag.Real => true
  | _ => false

/-- Modelled from the spec: the four steps of §4.4 for a destination of
`dest` bytes (the native width for a numeric tag, the destination capacity
for a string or octet tag): find, exact tag check, then the size check of the
tag family. -/
def fetch {α : Type} (array : List (Descriptor α)) (key : String) (expected_tag : ValueTag)
    (dest : Nat) : Except ParamError (Option α) :=
  match find array key with
  | none => Except.error ParamError.UnknownKey
  | some d =>
    if d.tag = expected_tag then
      if dest < d.used_size then
        if isNumeric d.tag then Except.error ParamError.ValueTruncated
        else Except.error (ParamError.BufferTooSmall d.used_size)
      else Except.ok d.data
    else Except.error ParamError.TypeMismatch

/-- Modelled from the spec: a descriptor is a size query (§4.5 `Query`) when
its data location is null or its capacity is zero. -/
def inQuery {α : Type} (d : Descriptor α) : Bool :=
  d.data.isNone || d.capacity == 0

/-- Modelled from the spec: the provider's answer for one descriptor (§4.5),
for a value `value` of `value_size` bytes.  On a size query it writes only
`used_size` and leaves `data` untouched.  Otherwise it fails with
`BufferTooSmall`, carrying the required size and writing nothing, when the
capacity is below the required size, and else copies the value and sets
`used_size` to its byte count. -/
def respond {α : Type} (value : α) (value_size : Nat) (d : Descriptor α) :
    Except ParamError (Descriptor α) :=
  if inQuery d then Except.ok { d with used_size := value_size }
  else if d.capacity < value_size then Except.error (ParamError.BufferTooSmall value_size)
  else Except.ok { d with data := some value, used_size := value_size }

/-- Modelled from the spec: the caller's `Sized` step (§4.5): the descriptor is
rebuilt with a real buffer and `capacity = allocated_size`. -/
def resubmit {α : Type} (d : Descriptor α) (buffer : α) (allocated_size : Nat) :
    Descriptor α :=
  { d with data := some buffer, capacity := allocated_size }

end Param

/-! ## Theorems about the header -/

namespace CoreNames

/-- No key string of the header is the empty string. -/
theorem keyStrings_ne_empty : ∀ k ∈ keyStrings, k ≠ "" := by decide

/-- The key strings of the header are pairwise distinct. -/
theorem keyStrings_nodup : keyStrings.Nodup := by decide

/-- A scan that meets a descriptor with a non-empty key visits it and goes on. -/
theorem for_each_cons_of_ne {α β : Type} (d : Param.Descriptor α)
    (ds : List (Param.Descriptor α)) (fn : Param.Descriptor α → β) (h : d.key ≠ "") :
    Param.for_each (d :: ds) fn = fn d :: Param.for_each ds fn := by
  simp [Param.for_each, h]

/-- A lookup whose first descriptor carries the searched, non-empty key returns it. -/
theorem find_head {α : Type} (d : Param.Descriptor α) (rest : List (Param.Descriptor α))
    (h : d.key ≠ "") : Param.find (d :: rest) d.key = some d := by
  simp [Param.find, h]

set_option maxRecDepth 100000 in
/-- C1: each of the fifteen macros expands to its documented string, byte for
byte (the table pairs every macro identifier with its value, and the UTF-8
bytes of every value are the listed ASCII codes), and each key string the spec
lists for the core/provider contract is the value of a macro of the header. -/
theorem C1_macro_values :
    (OSSL_PROV_PARAM_NAME = "name" ∧ OSSL_PROV_PARAM_VERSION = "version" ∧
      OSSL_PROV_PARAM_BUILDINFO = "buildinfo" ∧ OSSL_CIPHER_PARAM_PADDING = "padding" ∧
      OSSL_CIPHER_PARAM_MODE = "mode" ∧ OSSL_CIPHER_PARAM_BLOCK_SIZE = "blocksize" ∧
      OSSL_CIPHER_PARAM_FLAGS = "flags" ∧ OSSL_CIPHER_PARAM_KEYLEN = "keylen" ∧
      OSSL_CIPHER_PARAM_IVLEN = "ivlen" ∧ OSSL_CIPHER_PARAM_IV = "iv" ∧
      OSSL_CIPHER_PARAM_NUM = "num" ∧ OSSL_DIGEST_PARAM_XOFLEN = "xoflen" ∧
      OSSL_DIGEST_PARAM_SSL3_MS = "ssl3-ms" ∧ OSSL_DIGEST_PARAM_PAD_TYPE = "pad_type" ∧
      OSSL_DIGEST_PARAM_MICALG = "micalg") ∧
    core_names.map (fun m => (m.ident, m.value)) =
      [("OSSL_PROV_PARAM_NAME", "name"), ("OSSL_PROV_PARAM_VERSION", "version"),
       ("OSSL_PROV_PARAM_BUILDINFO", "buildinfo"), ("OSSL_CIPHER_PARAM_PADDING", "padding"),
       ("OSSL_CIPHER_PARAM_MODE", "mode"), ("OSSL_CIPHER_PARAM_BLOCK_SIZE", "blocksize"),
       ("OSSL_CIPHER_PARAM_FLAGS", "flags"), ("OSSL_CIPHER_PARAM_KEYLEN", "keylen"),
       ("OSSL_CIPHER_PARAM_IVLEN", "ivlen"), ("OSSL_CIPHER_PARAM_IV", "iv"),
       ("OSSL_CIPHER_PARAM_NUM", "num"), ("OSSL_DIGEST_PARAM_XOFLEN", "xoflen"),
       ("OSSL_DIGEST_PARAM_SSL3_MS", "ssl3-ms"), ("OSSL_DIGEST_PARAM_PAD_TYPE", "pad_type"),
       ("OSSL_DIGEST_PARAM_MICALG", "micalg")] ∧
    keyStrings.map (fun k => k.toUTF8.data.toList.map UInt8.toNat) =
      [[110, 97, 109, 101], [118, 101, 114, 115, 105, 111, 110],
       [98, 117, 105, 108, 100, 105, 110, 102, 111], [112, 97, 100, 100, 105, 110, 103],
       [109, 111, 100, 101], [98, 108, 111, 99, 107, 115, 105, 122, 101],
       [102, 108, 97, 103, 115], [107, 101, 121, 108, 101, 110], [105, 118, 108, 101, 110],
       [105, 118], [110, 117, 109], [120, 111, 102, 108, 101, 110],
       [115, 115, 108, 51, 45, 109, 115], [112, 97, 100, 95, 116, 121, 112, 101],
       [109, 105, 99, 97, 108, 103]] ∧
    (∀ k ∈ ["padding", "mode", "blocksize", "flags", "keylen", "ivlen", "iv", "num",
        "xoflen", "ssl3-ms", "pad_type", "micalg", "name"], k ∈ keyStrings) := by
  decide

/-- C1 at a concrete key: "ssl3-ms", listed by the spec, is the value of a
macro of the header. -/
theorem C1_macro_values_witness : "ssl3-ms" ∈ keyStrings :=
  C1_macro_values.2.2.2 "ssl3-ms" (by decide)

set_option maxRecDepth 100000 in
/-- C2: the type comments of the header, read as value tags: "name", "version"
and "buildinfo" are UTF8 string; "blocksize", "keylen", "ivlen" and "num" are
signed integer; "flags" is unsigned integer and is the only key so declared;
"iv" is octet pointer. -/
theorem C2_declared_types :
    core_names.filterMap (fun m => m.typeComment.map (fun c => (m.value, c))) =
      [("name", "OSSL_PARAM_UTF8_STRING"), ("version", "OSSL_PARAM_UTF8_STRING"),
       ("buildinfo", "OSSL_PARAM_UTF8_STRING"), ("blocksize", "OSSL_PARAM_INTEGER"),
       ("flags", "OSSL_PARAM_UNSIGNED_INTEGER"), ("keylen", "OSSL_PARAM_INTEGER"),
       ("ivlen", "OSSL_PARAM_INTEGER"), ("iv", "OSSL_PARAM_OCTET_PTR"),
       ("num", "OSSL_PARAM_INTEGER")] ∧
    declaredTag "name" = some ValueTag.Utf8String ∧
    declaredTag "version" = some ValueTag.Utf8String ∧
    declaredTag "buildinfo" = some ValueTag.Utf8String ∧
    declaredTag "blocksize" = some ValueTag.Int ∧
    declaredTag "keylen" = some ValueTag.Int ∧
    declaredTag "ivlen" = some ValueTag.Int ∧
    declaredTag "num" = some ValueTag.Int ∧
    declaredTag "flags" = some ValueTag.UInt ∧
    declaredTag "iv" = some ValueTag.OctetPtr ∧
    (∀ k ∈ keyStrings, declaredTag k = some ValueTag.UInt ↔ k = "flags") := by
  decide

/-- C2 at a concrete key: "flags" is declared unsigned. -/
theorem C2_declared_types_witness : declaredTag "flags" = some ValueTag.UInt :=
  (C2_declared_types.2.2.2.2.2.2.2.2.2.2 "flags" (by decide)).mpr rfl

/-- C3: every key string of the header has length at least 1 and differs from
the terminator's empty key, so a scan that stops at the first empty key visits
every descriptor that carries a well-known key and continues behind it. -/
theorem C3_keys_nonempty :
    (∀ m ∈ core_names, 1 ≤ m.value.length ∧ m.value ≠ (@Param.terminator Unit).key) ∧
    (∀ (α β : Type) (ds rest : List (Param.Descriptor α)) (fn : Param.Descriptor α → β),
      (∀ d ∈ ds, d.key ∈ keyStrings) →
        Param.for_each (ds ++ rest) fn = ds.map fn ++ Param.for_each rest fn) := by
  refine ⟨by decide, ?_⟩
  intro α β ds rest fn
  induction ds with
  | nil => intro _; rfl
  | cons d ds ih =>
    intro h
    have hd : d.key ≠ "" := keyStrings_ne_empty d.key (h d (List.mem_cons_self d ds))
    have ht : ∀ e ∈ ds, e.key ∈ keyStrings := fun e he => h e (List.mem_cons_of_mem d he)
    rw [List.cons_append, for_each_cons_of_ne _ _ _ hd, ih ht]
    rfl

/-- C3 at a concrete array: descriptors for "keylen" and "iv", then the
terminator, then one more descriptor; the scan visits exactly the first two. -/
theorem C3_keys_nonempty_witness :
    Param.for_each
      ([⟨"keylen", ValueTag.Int, some 32, 4, 4⟩, ⟨"iv", ValueTag.OctetPtr, none, 0, 0⟩] ++
        [Param.terminator, ⟨"num", ValueTag.Int, some 0, 4, 4⟩]) (fun d => d.key)
      = ["keylen", "iv"] :=
  (C3_keys_nonempty.2 Nat String
    [⟨"keylen", ValueTag.Int, some 32, 4, 4⟩, ⟨"iv", ValueTag.OctetPtr, none, 0, 0⟩]
    [Param.terminator, ⟨"num", ValueTag.Int, some 0, 4, 4⟩] (fun d => d.key)
    (by decide)).trans (by decide)

set_option maxRecDepth 100000 in
/-- C4: every byte of every key string is ASCII (below 128); each key starts
with a lowercase letter and consists only of lowercase letters, digits, `-`
and `_`; so no key holds an uppercase letter, whitespace, a NUL byte or a
non-ASCII byte.  The bytes are the UTF-8 bytes of the string. -/
theorem C4_keys_ascii :
    (∀ k ∈ keyStrings, k.toUTF8.data.toList.map UInt8.toNat = keyBytes k) ∧
    (∀ k ∈ keyStrings, ∀ b ∈ keyBytes k, b < 128 ∧ isKeyByte b = true) ∧
    (∀ k ∈ keyStrings, isLowerAscii ((keyBytes k).headD 0) = true) ∧
    (∀ k ∈ keyStrings, ∀ b ∈ keyBytes k,
      ¬ (65 ≤ b ∧ b ≤ 90) ∧ b ≠ 32 ∧ ¬ (9 ≤ b ∧ b ≤ 13) ∧ b ≠ 0 ∧ ¬ (128 ≤ b)) := by
  decide

/-- C4 at a concrete key: "ssl3-ms" starts with a lowercase letter, and its
digit `3` (byte 51) and its `-` (byte 45) are ASCII key bytes. -/
theorem C4_keys_ascii_witness :
    isLowerAscii ((keyBytes "ssl3-ms").headD 0) = true ∧
    (51 < 128 ∧ isKeyByte 51 = true) ∧ (45 < 128 ∧ isKeyByte 45 = true) :=
  ⟨C4_keys_ascii.2.2.1 "ssl3-ms" (by decide),
   C4_keys_ascii.2.1 "ssl3-ms" (by decide) 51 (by decide),
   C4_keys_ascii.2.1 "ssl3-ms" (by decide) 45 (by decide)⟩

end CoreNames

namespace CoreNames

/-- In an array whose keys are non-empty and pairwise distinct, looking up the
key of any of its descriptors returns that descriptor. -/
theorem find_of_mem_of_nodup {α : Type} (arr rest : List (Param.Descriptor α))
    (hne : ∀ d ∈ arr, d.key ≠ "") (hnd : (arr.map (fun d => d.key)).Nodup) :
    ∀ d ∈ arr, Param.find (arr ++ rest) d.key = some d := by
  induction arr with
  | nil => intro d hd; cases hd
  | cons e es ih =>
    intro d hd
    have he : e.key ≠ "" := hne e (List.mem_cons_self e es)
    rw [List.map_cons, List.nodup_cons] at hnd
    rcases List.mem_cons.mp hd with rfl | hmem
    · exact find_head d (es ++ rest) he
    · have hkey : e.key ≠ d.key := by
        intro heq
        exact hnd.1 (heq ▸ List.mem_map_of_mem (fun x => x.key) hmem)
      have hrec := ih (fun x hx => hne x (List.mem_cons_of_mem e hx)) hnd.2 d hmem
      simpa [Param.find, he, hkey] using hrec

set_option maxRecDepth 100000 in
/-- C5 fails as stated: the macro for "padding" carries no type comment (and so
do five others), hence not every macro of the header states a type among the
four kinds. -/
theorem C5_counterexample :
    (macroOfKey "padding" = some ⟨"OSSL_CIPHER_PARAM_PADDING", "padding", none⟩) ∧
    declaredTag "padding" = none ∧
    ¬ (∀ m ∈ core_names, ∃ t ∈ fourKinds, m.declaredTag = some t) := by
  decide

set_option maxRecDepth 100000 in
/-- C5 as amended: every type comment that the header states names one of the
four kinds (UTF8 string, integer, unsigned integer, octet pointer); nine of the
fifteen macros carry such a comment, and the six others (padding, mode and the
four digest macros) carry none. -/
theorem C5_annotated_types :
    (∀ m ∈ core_names, m.typeComment.isSome = true → ∃ t ∈ fourKinds, m.declaredTag = some t) ∧
    (core_names.filter (fun m => m.typeComment.isSome)).map KeyMacro.ident =
      ["OSSL_PROV_PARAM_NAME", "OSSL_PROV_PARAM_VERSION", "OSSL_PROV_PARAM_BUILDINFO",
       "OSSL_CIPHER_PARAM_BLOCK_SIZE", "OSSL_CIPHER_PARAM_FLAGS", "OSSL_CIPHER_PARAM_KEYLEN",
       "OSSL_CIPHER_PARAM_IVLEN", "OSSL_CIPHER_PARAM_IV", "OSSL_CIPHER_PARAM_NUM"] ∧
    (core_names.filter (fun m => m.typeComment.isNone)).map KeyMacro.ident =
      ["OSSL_CIPHER_PARAM_PADDING", "OSSL_CIPHER_PARAM_MODE", "OSSL_DIGEST_PARAM_XOFLEN",
       "OSSL_DIGEST_PARAM_SSL3_MS", "OSSL_DIGEST_PARAM_PAD_TYPE", "OSSL_DIGEST_PARAM_MICALG"] := by
  decide

/-- C5 as amended, at the macro for "blocksize": its comment names the integer
kind. -/
theorem C5_annotated_types_witness :
    ∃ t ∈ fourKinds,
      KeyMacro.declaredTag ⟨"OSSL_CIPHER_PARAM_BLOCK_SIZE", "blocksize", some "OSSL_PARAM_INTEGER"⟩
        = some t :=
  C5_annotated_types.1 ⟨"OSSL_CIPHER_PARAM_BLOCK_SIZE", "blocksize", some "OSSL_PARAM_INTEGER"⟩
    (by decide) rfl

set_option maxRecDepth 100000 in
/-- C9: the fifteen key strings are pairwise distinct across the three groups,
and stay so after ASCII case folding; an array with one descriptor per
well-known key has unique keys (and lookup finds each of its descriptors); an
exact comparison of a looked-up key with the header's keys matches at most one
macro. -/
theorem C9_keys_distinct :
    keyStrings.length = 15 ∧ keyStrings.Nodup ∧ (keyStrings.map foldKey).Nodup ∧
    (∀ m ∈ core_names, ∀ n ∈ core_names, m.value = n.value → m = n) ∧
    (∀ key : String, (core_names.filter (fun m => m.value == key)).length ≤ 1) ∧
    (∀ (α : Type) (arr rest : List (Param.Descriptor α)),
      (arr.map (fun d => d.key)).Perm keyStrings →
        (arr.map (fun d => d.key)).Nodup ∧
        ∀ d ∈ arr, Param.find (arr ++ rest) d.key = some d) := by
  refine ⟨by decide, by decide, by decide, by decide, ?_, ?_⟩
  · intro key
    by_cases hk : key ∈ keyStrings
    · revert key
      decide
    · have hnil : core_names.filter (fun m => m.value == key) = [] := by
        rw [List.filter_eq_nil_iff]
        intro m hm hmk
        exact hk ((beq_iff_eq.mp hmk) ▸ List.mem_map_of_mem KeyMacro.value hm)
      simp [hnil]
  · intro α arr rest hperm
    have hnd : (arr.map (fun d => d.key)).Nodup := hperm.nodup_iff.mpr keyStrings_nodup
    refine ⟨hnd, find_of_mem_of_nodup arr rest ?_ hnd⟩
    intro d hd
    exact keyStrings_ne_empty d.key
      (hperm.mem_iff.mp (List.mem_map_of_mem (fun x => x.key) hd))

/-- C9 at a concrete key: exactly one macro of the header has the value "iv",
although "ivlen" starts with the same bytes. -/
theorem C9_keys_distinct_witness :
    (core_names.filter (fun m => m.value == "iv")).length ≤ 1 ∧
    (core_names.filter (fun m => m.value == "IV")).length ≤ 1 :=
  ⟨C9_keys_distinct.2.2.2.2.1 "iv", C9_keys_distinct.2.2.2.2.1 "IV"⟩

set_option maxRecDepth 100000 in
/-- C10: exactly one ordered pair of distinct header keys is in the
proper-prefix relation, ("iv", "ivlen"); a comparison limited to the length of
the searched key confuses the searched key "iv" with the candidate "ivlen" and
no other two keys, and scanning the header in order with it returns the
"ivlen" macro for "iv", where whole-string matching returns the "iv" macro. -/
theorem C10_single_prefix_pair :
    prefixPairs = [(OSSL_CIPHER_PARAM_IV, OSSL_CIPHER_PARAM_IVLEN)] ∧
    (∀ a ∈ keyStrings, ∀ b ∈ keyStrings,
      properPrefixOf a b = true ↔ (a = "iv" ∧ b = "ivlen")) ∧
    (∀ s ∈ keyStrings, ∀ c ∈ keyStrings,
      (lengthLimitedEq s c = true ∧ s ≠ c) ↔ (s = "iv" ∧ c = "ivlen")) ∧
    (core_names.find? (fun m => lengthLimitedEq "iv" m.value)).map KeyMacro.ident
      = some "OSSL_CIPHER_PARAM_IVLEN" ∧
    (macroOfKey "iv").map KeyMacro.ident = some "OSSL_CIPHER_PARAM_IV" := by
  decide

/-- C10 at the one pair: "iv" is a proper prefix of "ivlen". -/
theorem C10_single_prefix_pair_witness : properPrefixOf "iv" "ivlen" = true :=
  (C10_single_prefix_pair.2.1 "iv" (by decide) "ivlen" (by decide)).mpr ⟨rfl, rfl⟩

end CoreNames

/-! ## Theorems about the parameter protocol -/

namespace Param

open CoreNames (ValueTag)

/-- A descriptor built by `set` carries the tag, key, source and size it was
built from. -/
theorem set_ok_fields {α : Type} (fixed : Option Nat) (key : String) (tag : ValueTag)
    (source : α) (size : Nat) (d : Descriptor α)
    (h : set fixed key tag source size = Except.ok d) :
    d.key = key ∧ d.tag = tag ∧ d.data = some source ∧ d.used_size = size ∧
      d.used_size ≤ d.capacity := by
  cases fixed with
  | none =>
    simp only [set, Except.ok.injEq] at h
    subst h
    simp
  | some c =>
    simp only [set] at h
    split at h
    · cases h
    · simp only [Except.ok.injEq] at h
      subst h
      simp only [true_and]
      omega

/-- C6: for a descriptor set with tag `t` and any expected tag `t2` different
from `t`, `get` fails with `TypeMismatch` and returns no value; the same holds
for the lookup by key in any array where the key finds the descriptor, also
through the coercion layer whatever the destination size. -/
theorem C6_type_mismatch {α : Type} (fixed : Option Nat) (key : String) (t t2 : ValueTag)
    (source : α) (size : Nat) (d : Descriptor α)
    (hset : set fixed key t source size = Except.ok d) (hne : t2 ≠ t) :
    get d t2 = Except.error ParamError.TypeMismatch ∧
    (∀ v, get d t2 ≠ Except.ok v) ∧
    (∀ (array : List (Descriptor α)) (dest : Nat), find array key = some d →
      getFrom array key t2 = Except.error ParamError.TypeMismatch ∧
      fetch array key t2 dest = Except.error ParamError.TypeMismatch) := by
  have htag : d.tag = t := (set_ok_fields fixed key t source size d hset).2.1
  have hmis : ¬ d.tag = t2 := fun h => hne (h.symm.trans htag)
  have hget : get d t2 = Except.error ParamError.TypeMismatch := by
    simp [get, hmis]
  refine ⟨hget, ?_, ?_⟩
  · intro v hv
    rw [hget] at hv
    cases hv
  · intro array dest hfind
    refine ⟨?_, ?_⟩
    · simp [getFrom, hfind, hget]
    · simp [fetch, hfind, hmis]

/-- C6 at the scenario: "mode" stored as `Utf8String` and requested as `Int`
fails with `TypeMismatch`, for the descriptor and for the array that holds it. -/
theorem C6_type_mismatch_witness :
    get (⟨"mode", ValueTag.Utf8String, some "cbc", 8, 3⟩ : Descriptor String) ValueTag.Int
      = Except.error ParamError.TypeMismatch ∧
    getFrom [⟨"mode", ValueTag.Utf8String, some "cbc", 8, 3⟩, terminator]
      CoreNames.OSSL_CIPHER_PARAM_MODE ValueTag.Int = Except.error ParamError.TypeMismatch ∧
    fetch [⟨"mode", ValueTag.Utf8String, some "cbc", 8, 3⟩, terminator]
      CoreNames.OSSL_CIPHER_PARAM_MODE ValueTag.Int 4 = Except.error ParamError.TypeMismatch :=
  have h := C6_type_mismatch (some 8) CoreNames.OSSL_CIPHER_PARAM_MODE ValueTag.Utf8String
    ValueTag.Int "cbc" 3 ⟨"mode", ValueTag.Utf8String, some "cbc", 8, 3⟩ rfl (by decide)
  ⟨h.1, h.2.2 [⟨"mode", ValueTag.Utf8String, some "cbc", 8, 3⟩, terminator] 4 rfl⟩

/-- C7: for every key, tag and value whose size fits the capacity, `set`
succeeds with `used_size` equal to the size, and `get` with the same tag
returns the value that was set, for the descriptor and for the lookup by key
in an array that starts with it (also through the coercion layer, for a
destination of at least that size); the same holds when the provider writes the
value into a caller-built descriptor with a buffer of sufficient capacity. -/
theorem C7_round_trip {α : Type} (fixed : Option Nat) (key : String) (tag : ValueTag)
    (value : α) (size : Nat) (rest : List (Descriptor α))
    (hkey : key ≠ "") (hfit : ∀ c, fixed = some c → size ≤ c) :
    (∃ d, set fixed key tag value size = Except.ok d ∧ d.used_size = size ∧
      d.used_size ≤ d.capacity ∧
      get d tag = Except.ok (some value) ∧
      getFrom (d :: rest) key tag = Except.ok (some value) ∧
      (∀ dest, size ≤ dest → fetch (d :: rest) key tag dest = Except.ok (some value))) ∧
    (∀ (buffer : α) (capacity : Nat), 0 < capacity → size ≤ capacity →
      ∃ f, respond value size ⟨key, tag, some buffer, capacity, 0⟩ = Except.ok f ∧
        f.used_size = size ∧ f.capacity = capacity ∧
        get f tag = Except.ok (some value) ∧
        getFrom (f :: rest) key tag = Except.ok (some value)) := by
  refine ⟨?_, ?_⟩
  · cases fixed with
    | none =>
      refine ⟨⟨key, tag, some value, size, size⟩, rfl, rfl, Nat.le_refl _, ?_, ?_, ?_⟩
      · simp [get]
      · simp [getFrom, find, hkey, get]
      · intro dest hdest
        simp [fetch, find, hkey, Nat.not_lt.mpr hdest]
    | some c =>
      have hc : ¬ c < size := Nat.not_lt.mpr (hfit c rfl)
      refine ⟨⟨key, tag, some value, c, size⟩, ?_, rfl, hfit c rfl, ?_, ?_, ?_⟩
      · simp [set, hc]
      · simp [get]
      · simp [getFrom, find, hkey, get]
      · intro dest hdest
        simp [fetch, find, hkey, Nat.not_lt.mpr hdest]
  · intro buffer capacity hpos hle
    have hq : ¬ capacity = 0 := by omega
    have hc : ¬ capacity < size := Nat.not_lt.mpr hle
    refine ⟨⟨key, tag, some value, capacity, size⟩, ?_, rfl, rfl, ?_, ?_⟩
    · simp [respond, inQuery, hq, hc]
    · simp [get]
    · simp [getFrom, find, hkey, get]

/-- C7 at the scenario: key "keylen", tag `Int`, capacity 4, value 32 of 4
bytes; the lookup returns 32 and `used_size` is 4, for `set` and for the
provider's write into the caller's descriptor. -/
theorem C7_round_trip_witness :
    (∃ d : Descriptor Int,
      set (some 4) CoreNames.OSSL_CIPHER_PARAM_KEYLEN ValueTag.Int 32 4 = Except.ok d ∧
      d.used_size = 4 ∧ d.used_size ≤ d.capacity ∧
      get d ValueTag.Int = Except.ok (some 32) ∧
      getFrom [d, terminator] "keylen" ValueTag.Int = Except.ok (some 32) ∧
      (∀ dest, 4 ≤ dest →
        fetch [d, terminator] "keylen" ValueTag.Int dest = Except.ok (some 32))) ∧
    (∃ f : Descriptor Int,
      respond 32 4 ⟨"keylen", ValueTag.Int, some 0, 4, 0⟩ = Except.ok f ∧
      f.used_size = 4 ∧ f.capacity = 4 ∧
      get f ValueTag.Int = Except.ok (some 32) ∧
      getFrom [f, terminator] "keylen" ValueTag.Int = Except.ok (some 32)) :=
  have h := C7_round_trip (some 4) CoreNames.OSSL_CIPHER_PARAM_KEYLEN ValueTag.Int (32 : Int) 4
    [terminator] (by decide) (fun c hc => by cases hc; exact Nat.le_refl 4)
  ⟨h.1, h.2 0 4 (by decide) (by decide)⟩

/-- C8: for a value of `size` bytes, the provider's answer to a size query
(null data or zero capacity) writes only `used_size = size` and leaves data
and capacity untouched; after the caller resubmits the descriptor with a
buffer of at least `size` bytes the fill succeeds, writes the same
`used_size`, and `get` returns the value. -/
theorem C8_query_then_fill {α : Type} (value : α) (size : Nat) (d : Descriptor α)
    (buffer : α) (allocated : Nat)
    (hquery : inQuery d = true) (hsize : size ≤ allocated) (hpos : 0 < allocated) :
    ∃ q f, respond value size d = Except.ok q ∧
      q.data = d.data ∧ q.capacity = d.capacity ∧ q.key = d.key ∧ q.tag = d.tag ∧
      q.used_size = size ∧
      inQuery (resubmit q buffer allocated) = false ∧
      respond value size (resubmit q buffer allocated) = Except.ok f ∧
      f.used_size = q.used_size ∧ f.used_size ≤ f.capacity ∧
      get f d.tag = Except.ok (some value) ∧
      (d.key ≠ "" → ∀ rest, getFrom (f :: rest) d.key d.tag = Except.ok (some value)) := by
  have hq : ¬ allocated = 0 := by omega
  have hc : ¬ allocated < size := Nat.not_lt.mpr hsize
  refine ⟨{ d with used_size := size },
    ⟨d.key, d.tag, some value, allocated, size⟩, ?_, rfl, rfl, rfl, rfl, rfl, ?_, ?_, rfl,
    hsize, ?_, ?_⟩
  · simp [respond, hquery]
  · simp [inQuery, resubmit, hq]
  · simp [respond, inQuery, resubmit, hq, hc]
  · simp [get]
  · intro hkey rest
    simp [getFrom, find, hkey, get]

/-- C8 at the scenario: key "iv", tag `OctetPtr`, null data, capacity 0 and a
16-byte IV; the query reports 16, and after a 16-byte buffer is resubmitted the
fill reports 16 and the lookup returns the 16 bytes. -/
theorem C8_query_then_fill_witness :
    ∃ q f : Descriptor (List Nat),
      respond (List.range 16) 16 ⟨"iv", ValueTag.OctetPtr, none, 0, 0⟩ = Except.ok q ∧
      q.data = none ∧ q.capacity = 0 ∧ q.used_size = 16 ∧
      respond (List.range 16) 16 (resubmit q (List.replicate 16 0) 16) = Except.ok f ∧
      f.used_size = 16 ∧
      getFrom [f, terminator] CoreNames.OSSL_CIPHER_PARAM_IV ValueTag.OctetPtr
        = Except.ok (some (List.range 16)) ∧
      (List.range 16).length = 16 :=
  match C8_query_then_fill (List.range 16) 16
      (⟨"iv", ValueTag.OctetPtr, none, 0, 0⟩ : Descriptor (List Nat))
      (List.replicate 16 0) 16 rfl (Nat.le_refl 16) (by decide) with
  | ⟨q, f, h1, h2, h3, _, _, h6, _, h8, h9, _, _, h12⟩ =>
    ⟨q, f, h1, h2, h3, h6, h8, h9.trans h6, h12 (by decide) [terminator], rfl⟩

end Param
